import Mathlib

/-!
Shallow embedding of the msg91 client library (src/msg91/resources/otp.py and
src/msg91/resources/sms.py): request construction for every operation and the
error-classification policy applied to completed HTTP exchanges, together with
proofs of the behavioural properties of these operations.
-/

/-- A parsed JSON value, as produced by `response.json()`. -/
inductive JsonVal where
  | null : JsonVal
  | bool : Bool → JsonVal
  | num : Int → JsonVal
  | str : String → JsonVal
  | arr : List JsonVal → JsonVal
  | obj : List (String × JsonVal) → JsonVal

/-- A query-parameter or JSON-payload value as the resource modules build them
(strings and integers are the only value shapes the source ever inserts). -/
inductive Value where
  | str : String → Value
  | int : Int → Value
deriving DecidableEq

/-- First-match lookup in an association list; models Python `dict.get(k)`
(dict keys are unique, so first-match agrees with the dict). -/
def getVal {α : Type} (k : String) : List (String × α) → Option α
  | [] => none
  | (k', v) :: rest => if k' = k then some v else getVal k rest

/-- Models Python dict assignment `d[k] = v`: replace in place when the key is
present, append otherwise. -/
def setKey {α : Type} (k : String) (v : α) : List (String × α) → List (String × α)
  | [] => [(k, v)]
  | (k', v') :: rest => if k' = k then (k, v) :: rest else (k', v') :: setKey k v rest

/-- Models the `for key, value in kwargs.items(): d[key] = value` loops that
merge extra keyword parameters into an already-built dict. -/
def applyKwargs {α : Type} (kw : List (String × α)) (ps : List (String × α)) :
    List (String × α) :=
  kw.foldl (fun acc p => setKey p.1 p.2 acc) ps

/-- Whether an association list carries the key `k`. -/
def hasKey {α : Type} (k : String) (l : List (String × α)) : Bool :=
  l.any (fun p => p.1 = k)

/-- A completed HTTP exchange as the resource code observes it: status code,
the httpx success flag, the parsed JSON body when `response.json()` succeeds
(`none` models the `ValueError` branch), and the raw body text. -/
structure HttpResponse where
  status : Nat
  is_success : Bool
  jsonBody : Option JsonVal
  text : String

/-- The `try: response_data = response.json() except ValueError:` block common
to every operation: the parsed body, or the `{"raw_content": response.text}`
fallback when the body is not valid JSON. -/
def parseBody (r : HttpResponse) : JsonVal :=
  match r.jsonBody with
  | some j => j
  | none => JsonVal.obj [("raw_content", JsonVal.str r.text)]

/-- Python `str.lower()` on the type marker: character-wise lower-casing
(defined over the character list so that it evaluates by kernel reduction). -/
def lowerStr (s : String) : String := String.mk (s.data.map Char.toLower)

/-- Models `response_data.get("type", "").lower() if isinstance(response_data, dict)
else ""`. Returns `none` exactly when the Python expression would raise
`AttributeError`: a mapping whose `type` field holds a non-string value. -/
def getTypeLower (body : JsonVal) : Option String :=
  match body with
  | JsonVal.obj fs =>
    match getVal "type" fs with
    | none => some ""
    | some (JsonVal.str s) => some (lowerStr s)
    | some _ => none
  | _ => some ""

/-- Models `response_data.get("message", default) if isinstance(response_data, dict)
else default`: the body's `message` field, or the operation's fixed default. -/
def getMessage (body : JsonVal) (dflt : String) : JsonVal :=
  match body with
  | JsonVal.obj fs =>
    match getVal "message" fs with
    | some v => v
    | none => JsonVal.str dflt
  | _ => JsonVal.str dflt

/-- The observable outcome of one resource operation: the returned envelope, or
the one classified error it raises. `invalidArgument` models the `ValueError`
raised before any network call; `transportError` models the `MSG91Exception`
raised on `httpx.RequestError`; `attributeCrash` models the uncaught
`AttributeError` when a failing body's `type` field is not a string. -/
inductive OpOutcome where
  | success : JsonVal → OpOutcome
  | invalidArgument : String → OpOutcome
  | authenticationError : JsonVal → Nat → JsonVal → OpOutcome
  | validationError : JsonVal → Nat → JsonVal → OpOutcome
  | apiError : JsonVal → Nat → JsonVal → OpOutcome
  | transportError : String → OpOutcome
  | attributeCrash : OpOutcome

/-- The response-handling sequence duplicated verbatim in every operation
(otp.py lines 72-108, sms.py lines 92-128), parameterised by the operation's
fixed default message: return the parsed body on success, otherwise compute
`error_type` and `message` from the body and classify — 401 first, then
400-or-validation-marker, then the generic API error. -/
def classify (status : Nat) (isSucc : Bool) (bodyData : JsonVal) (defaultMsg : String) :
    OpOutcome :=
  if isSucc then OpOutcome.success bodyData
  else
    match getTypeLower bodyData with
    | none => OpOutcome.attributeCrash
    | some errorType =>
      let message := getMessage bodyData defaultMsg
      if status = 401 then OpOutcome.authenticationError message status bodyData
      else if status = 400 ∨ errorType = "validation" then
        OpOutcome.validationError message status bodyData
      else OpOutcome.apiError message status bodyData

/-- Response handling of `OTPResource.send` (otp.py lines 72-108). -/
def otpSendHandle (r : HttpResponse) : OpOutcome :=
  classify r.status r.is_success (parseBody r) "OTP sending failed"

/-- Response handling of `OTPResource.verify` (otp.py lines 148-184). -/
def otpVerifyHandle (r : HttpResponse) : OpOutcome :=
  classify r.status r.is_success (parseBody r) "OTP verification failed"

/-- Response handling of `OTPResource.resend` (otp.py lines 224-260). -/
def otpResendHandle (r : HttpResponse) : OpOutcome :=
  classify r.status r.is_success (parseBody r) "OTP resend failed"

/-- Response handling of `SMSResource.send` (sms.py lines 92-128). -/
def smsSendHandle (r : HttpResponse) : OpOutcome :=
  classify r.status r.is_success (parseBody r) "SMS sending failed"

/-- What the transport (`httpx.get` / `httpx.post`) produced: a completed
response, or an `httpx.RequestError` carrying the cause's message. -/
inductive TransportResult where
  | response : HttpResponse → TransportResult
  | requestError : String → TransportResult

/-- Runs an operation's response handling over a transport result. On
`httpx.RequestError` every operation raises
`MSG91Exception(f"Network error: {str(e)}")` (otp.py lines 110-113, 186-189,
262-265, sms.py lines 130-133); the exception classes themselves live in
msg91/exceptions.py, which the classified `OpOutcome` constructors model. -/
def runOp (handle : HttpResponse → OpOutcome) : TransportResult → OpOutcome
  | TransportResult.response r => handle r
  | TransportResult.requestError cause =>
    OpOutcome.transportError ("Network error: " ++ cause)

/-- Models `if v:` followed by `d[k] = v` for an optional string argument:
Python truthiness skips both `None` and the empty string. -/
def addOptStr (k : String) (v : Option String) (ps : List (String × Value)) :
    List (String × Value) :=
  match v with
  | some s => if s = "" then ps else setKey k (Value.str s) ps
  | none => ps

/-- Models `if v:` followed by `d[k] = v` for an optional integer argument:
Python truthiness skips both `None` and zero. -/
def addOptInt (k : String) (v : Option Int) (ps : List (String × Value)) :
    List (String × Value) :=
  match v with
  | some n => if n = 0 then ps else setKey k (Value.int n) ps
  | none => ps

/-- Models `if v is not None:` followed by `d[k] = v` for an optional string. -/
def addIfSome (k : String) (v : Option String) (ps : List (String × Value)) :
    List (String × Value) :=
  match v with
  | some s => setKey k (Value.str s) ps
  | none => ps

/-- Models `if v is not None: d[k] = "1" if v else "0"`, the serialization the
source uses for the `flash`, `unicode` and `short_url` boolean flags. -/
def addFlag (k : String) (v : Option Bool) (ps : List (String × Value)) :
    List (String × Value) :=
  match v with
  | some b => setKey k (Value.str (if b then "1" else "0")) ps
  | none => ps

/-- The arguments of `OTPResource.send` (otp.py lines 15-24). -/
structure OtpSendArgs where
  mobile : String
  message : Option String := none
  sender : Option String := none
  otp : Option String := none
  otp_expiry : Option Int := none
  otp_length : Option Int := none
  kwargs : List (String × Value) := []

/-- Parameter construction of `OTPResource.send` (otp.py lines 42-67): the
`{"authkey": ..., "mobile": ...}` dict literal, the truthiness-guarded optional
fields, the local `otp_length` range check that raises
`ValueError("OTP length must be between 4 and 9")`, and the kwargs merge. -/
def buildOtpSendParams (authKey : String) (a : OtpSendArgs) :
    Except String (List (String × Value)) :=
  let ps : List (String × Value) :=
    [("authkey", Value.str authKey), ("mobile", Value.str a.mobile)]
  let ps := addOptStr "message" a.message ps
  let ps := addOptStr "sender" a.sender ps
  let ps := addOptStr "otp" a.otp ps
  let ps := addOptInt "otp_expiry" a.otp_expiry ps
  match a.otp_length with
  | none => Except.ok (applyKwargs a.kwargs ps)
  | some n =>
    if n = 0 then Except.ok (applyKwargs a.kwargs ps)
    else if 4 ≤ n ∧ n ≤ 9 then
      Except.ok (applyKwargs a.kwargs (setKey "otp_length" (Value.int n) ps))
    else Except.error "OTP length must be between 4 and 9"

/-- `OTPResource.send` end to end: the pre-flight `ValueError` is raised before
the transport is consulted; otherwise the shared response handling runs on
whatever the transport produced. -/
def otpSend (authKey : String) (a : OtpSendArgs) (t : TransportResult) : OpOutcome :=
  match buildOtpSendParams authKey a with
  | Except.error msg => OpOutcome.invalidArgument msg
  | Except.ok _ => runOp otpSendHandle t

/-- `OTPResource.verify` over a transport result (no local validation exists). -/
def otpVerifyOp (t : TransportResult) : OpOutcome := runOp otpVerifyHandle t

/-- `OTPResource.resend` over a transport result (no local validation exists). -/
def otpResendOp (t : TransportResult) : OpOutcome := runOp otpResendHandle t

/-- `SMSResource.send` over a transport result (no local validation exists). -/
def smsSendOp (t : TransportResult) : OpOutcome := runOp smsSendHandle t

/-- An outgoing HTTP request as a resource operation hands it to httpx: URL,
method, explicit headers (empty when the `httpx.get(...)` call passes none),
query parameters and JSON payload. -/
structure RequestDescriptor where
  method : String
  url : String
  headers : List (String × String)
  params : List (String × Value)
  jsonBody : List (String × Value)

/-- The request `OTPResource.send` issues (otp.py lines 40-70):
`httpx.get(otp_url, params=params, timeout=30)` — no headers argument. -/
def otpSendRequest (authKey : String) (a : OtpSendArgs) :
    Except String RequestDescriptor :=
  (buildOtpSendParams authKey a).map (fun ps =>
    { method := "GET", url := "http://api.msg91.com/api/sendotp.php",
      headers := [], params := ps, jsonBody := [] })

/-- Parameter dict of `OTPResource.verify` (otp.py lines 135-143). -/
def otpVerifyParams (authKey mobile otp : String) (kw : List (String × Value)) :
    List (String × Value) :=
  applyKwargs kw
    [("authkey", Value.str authKey), ("mobile", Value.str mobile),
     ("otp", Value.str otp)]

/-- The request `OTPResource.verify` issues (otp.py lines 132-146):
`httpx.get(verify_url, params=params, timeout=30)` — no headers argument. -/
def otpVerifyRequest (authKey mobile otp : String) (kw : List (String × Value)) :
    RequestDescriptor :=
  { method := "GET", url := "http://api.msg91.com/api/verifyRequestOTP.php",
    headers := [], params := otpVerifyParams authKey mobile otp kw, jsonBody := [] }

/-- Parameter dict of `OTPResource.resend` (otp.py lines 211-219). -/
def otpResendParams (authKey mobile retrytype : String) (kw : List (String × Value)) :
    List (String × Value) :=
  applyKwargs kw
    [("authkey", Value.str authKey), ("mobile", Value.str mobile),
     ("retrytype", Value.str retrytype)]

/-- The request `OTPResource.resend` issues (otp.py lines 208-222):
`httpx.get(retry_url, params=params, timeout=30)` — no headers argument. -/
def otpResendRequest (authKey mobile retrytype : String) (kw : List (String × Value)) :
    RequestDescriptor :=
  { method := "GET", url := "http://api.msg91.com/api/retryotp.php",
    headers := [], params := otpResendParams authKey mobile retrytype kw,
    jsonBody := [] }

/-- The arguments of `SMSResource.send` (sms.py lines 15-27). `mobile` is a
single string or a list of strings. -/
structure SmsSendArgs where
  mobile : Sum String (List String)
  message : String
  sender : String
  route : String := "4"
  country : Option String := none
  flash : Option Bool := none
  unicode : Option Bool := none
  scheduled_datetime : Option String := none
  campaign : Option String := none
  kwargs : List (String × Value) := []

/-- Mobile-number formatting in `SMSResource.send` (sms.py lines 48-52): a list
is joined with commas, a single string passes through unchanged. -/
def formatMobile : Sum String (List String) → String
  | Sum.inl s => s
  | Sum.inr xs => String.intercalate "," xs

/-- Payload construction of `SMSResource.send` (sms.py lines 54-81): the dict
literal, the `is not None` guards for `country`/`flash`/`unicode`, the
truthiness guards for `scheduled_datetime`/`campaign`, and the kwargs merge. -/
def buildSmsSendPayload (authKey : String) (a : SmsSendArgs) :
    List (String × Value) :=
  let p : List (String × Value) :=
    [("authkey", Value.str authKey), ("mobiles", Value.str (formatMobile a.mobile)),
     ("message", Value.str a.message), ("sender", Value.str a.sender),
     ("route", Value.str a.route), ("response", Value.str "json")]
  let p := addIfSome "country" a.country p
  let p := addFlag "flash" a.flash p
  let p := addFlag "unicode" a.unicode p
  let p := addOptStr "scheduledatetime" a.scheduled_datetime p
  let p := addOptStr "campaign" a.campaign p
  applyKwargs a.kwargs p

/-- The request `SMSResource.send` issues (sms.py lines 83-90):
`httpx.post(sms_url, json=payload, headers=headers, timeout=30)` with the
`Content-Type` and `authkey` headers. -/
def smsSendRequest (authKey : String) (a : SmsSendArgs) : RequestDescriptor :=
  { method := "POST", url := "http://api.msg91.com/api/v2/sendsms",
    headers := [("Content-Type", "application/json"), ("authkey", authKey)],
    params := [], jsonBody := buildSmsSendPayload authKey a }

/-- One entry of the `recipients` list built by `SMSResource._format_recipients`
(sms.py lines 181-186): the dict `{"mobile": number}` optionally extended with
a `"variables"` key. -/
structure Recipient where
  mobile : String
  vars : Option (List (String × Value))
deriving DecidableEq

/-- `SMSResource._format_recipients` (sms.py lines 174-188): a single string
mobile becomes a one-element list; each number becomes `{"mobile": number}`,
and `if variables:` (Python truthiness — `None` and the empty dict both skip)
attaches the same `variables` mapping to the entry. -/
def formatRecipients (mobile : Sum String (List String))
    (vars : Option (List (String × Value))) : List Recipient :=
  let ms := match mobile with
    | Sum.inl s => [s]
    | Sum.inr xs => xs
  ms.map (fun number =>
    { mobile := number,
      vars :=
        match vars with
        | some vs => if vs = [] then none else some vs
        | none => none })

/-- A JSON-payload value of `SMSResource.send_template`: strings, integers, or
the `recipients` list. -/
inductive TValue where
  | str : String → TValue
  | int : Int → TValue
  | recipientList : List Recipient → TValue
deriving DecidableEq

/-- Models `if v:` followed by `d[k] = v` for an optional string in a
`send_template` payload. -/
def addOptStrT (k : String) (v : Option String) (ps : List (String × TValue)) :
    List (String × TValue) :=
  match v with
  | some s => if s = "" then ps else setKey k (TValue.str s) ps
  | none => ps

/-- Payload construction of `SMSResource.send_template` (sms.py lines 157-170):
the `template_id`/`recipients` dict literal, the truthiness guard on
`sender_id`, the `is not None` guard serializing `short_url` as `"1"`/`"0"`,
and the kwargs merge. -/
def buildSendTemplatePayload (template_id : String)
    (mobile : Sum String (List String))
    (vars : Option (List (String × Value)))
    (sender_id : Option String) (short_url : Option Bool)
    (kw : List (String × TValue)) : List (String × TValue) :=
  let p : List (String × TValue) :=
    [("template_id", TValue.str template_id),
     ("recipients", TValue.recipientList (formatRecipients mobile vars))]
  let p := addOptStrT "sender" sender_id p
  let p := match short_url with
    | some b => setKey "short_url" (TValue.str (if b then "1" else "0")) p
    | none => p
  applyKwargs kw p

theorem getVal_setKey_self {α : Type} (k : String) (v : α) (l : List (String × α)) :
    getVal k (setKey k v l) = some v := by
  induction l with
  | nil => simp [setKey, getVal]
  | cons p rest ih =>
    obtain ⟨k', v'⟩ := p
    by_cases h : k' = k
    · simp [setKey, h, getVal]
    · simp [setKey, h, getVal, ih]

theorem getVal_setKey_of_ne {α : Type} {k k' : String} (v : α) (l : List (String × α))
    (h : k' ≠ k) : getVal k (setKey k' v l) = getVal k l := by
  induction l with
  | nil => simp [setKey, getVal, h]
  | cons p rest ih =>
    obtain ⟨k'', v''⟩ := p
    by_cases h2 : k'' = k'
    · simp [setKey, h2, getVal, h]
    · by_cases h3 : k'' = k <;> simp [setKey, h2, getVal, h3, ih, Ne.symm h]

theorem applyKwargs_cons {α : Type} (k : String) (v : α) (kw : List (String × α))
    (ps : List (String × α)) :
    applyKwargs ((k, v) :: kw) ps = applyKwargs kw (setKey k v ps) := rfl

theorem getVal_applyKwargs_of_hasKey_false {α : Type} {k : String}
    {kw : List (String × α)} (ps : List (String × α)) (h : hasKey k kw = false) :
    getVal k (applyKwargs kw ps) = getVal k ps := by
  induction kw generalizing ps with
  | nil => rfl
  | cons p rest ih =>
    obtain ⟨k', v'⟩ := p
    simp only [hasKey, List.any_cons, Bool.or_eq_false_iff, decide_eq_false_iff_not] at h
    rw [applyKwargs_cons, ih _ (by simp [hasKey, h.2]),
      getVal_setKey_of_ne _ _ h.1]

theorem hasKey_eq_false_of_not_mem {α : Type} {k : String} {l : List (String × α)}
    (h : k ∉ l.map Prod.fst) : hasKey k l = false := by
  induction l with
  | nil => rfl
  | cons p rest ih =>
    simp only [List.map_cons, List.mem_cons] at h
    push_neg at h
    simp only [hasKey, List.any_cons, Bool.or_eq_false_iff, decide_eq_false_iff_not]
    exact ⟨fun he => h.1 he.symm, by simpa [hasKey] using ih h.2⟩

theorem getVal_applyKwargs_of_mem {α : Type} {k : String} {v : α}
    {kw : List (String × α)} (ps : List (String × α))
    (hnd : (kw.map Prod.fst).Nodup) (hm : (k, v) ∈ kw) :
    getVal k (applyKwargs kw ps) = some v := by
  induction kw generalizing ps with
  | nil => cases hm
  | cons p rest ih =>
    obtain ⟨k', v'⟩ := p
    simp only [List.map_cons, List.nodup_cons] at hnd
    rcases List.mem_cons.mp hm with heq | hmem
    · obtain ⟨hk, hv⟩ := Prod.mk.injEq .. ▸ heq
      subst hk; subst hv
      rw [applyKwargs_cons,
        getVal_applyKwargs_of_hasKey_false _ (hasKey_eq_false_of_not_mem hnd.1),
        getVal_setKey_self]
    · rw [applyKwargs_cons]
      exact ih _ hnd.2 hmem

theorem getVal_addOptStr_of_ne {k k' : String} (v : Option String)
    (ps : List (String × Value)) (h : k' ≠ k) :
    getVal k (addOptStr k' v ps) = getVal k ps := by
  cases v with
  | none => rfl
  | some s =>
    by_cases hs : s = "" <;> simp [addOptStr, hs, getVal_setKey_of_ne _ _ h]

theorem getVal_addOptInt_of_ne {k k' : String} (v : Option Int)
    (ps : List (String × Value)) (h : k' ≠ k) :
    getVal k (addOptInt k' v ps) = getVal k ps := by
  cases v with
  | none => rfl
  | some n =>
    by_cases hn : n = 0 <;> simp [addOptInt, hn, getVal_setKey_of_ne _ _ h]

theorem getVal_addIfSome_of_ne {k k' : String} (v : Option String)
    (ps : List (String × Value)) (h : k' ≠ k) :
    getVal k (addIfSome k' v ps) = getVal k ps := by
  cases v with
  | none => rfl
  | some s => simp [addIfSome, getVal_setKey_of_ne _ _ h]

theorem getVal_addFlag_of_ne {k k' : String} (v : Option Bool)
    (ps : List (String × Value)) (h : k' ≠ k) :
    getVal k (addFlag k' v ps) = getVal k ps := by
  cases v with
  | none => rfl
  | some b => simp [addFlag, getVal_setKey_of_ne _ _ h]

theorem getVal_addOptStrT_of_ne {k k' : String} (v : Option String)
    (ps : List (String × TValue)) (h : k' ≠ k) :
    getVal k (addOptStrT k' v ps) = getVal k ps := by
  cases v with
  | none => rfl
  | some s =>
    by_cases hs : s = "" <;> simp [addOptStrT, hs, getVal_setKey_of_ne _ _ h]

/-- C1: for every failing HTTP response (is_success false) with status 401,
every operation (otp.send, otp.verify, otp.resend, sms.send) raises
AuthenticationError carrying that status, the body's message field (or the
fixed per-operation default when absent), and the parsed body as details —
even when the body's type field equals "validation" (the quantification over
`et` covers it); the 401 check is applied strictly before the 400/validation
check. -/
theorem claim_C1 (r : HttpResponse) (et : String)
    (hf : r.is_success = false) (hs : r.status = 401)
    (ht : getTypeLower (parseBody r) = some et) :
    otpSendHandle r =
      OpOutcome.authenticationError (getMessage (parseBody r) "OTP sending failed")
        r.status (parseBody r) ∧
    otpVerifyHandle r =
      OpOutcome.authenticationError (getMessage (parseBody r) "OTP verification failed")
        r.status (parseBody r) ∧
    otpResendHandle r =
      OpOutcome.authenticationError (getMessage (parseBody r) "OTP resend failed")
        r.status (parseBody r) ∧
    smsSendHandle r =
      OpOutcome.authenticationError (getMessage (parseBody r) "SMS sending failed")
        r.status (parseBody r) ∧
    (∀ fs v d, getVal "message" fs = some v → getMessage (JsonVal.obj fs) d = v) ∧
    (∀ fs d, getVal "message" fs = none → getMessage (JsonVal.obj fs) d = JsonVal.str d) := by
  refine ⟨?_, ?_, ?_, ?_, ?_, ?_⟩
  · simp [otpSendHandle, classify, hf, hs, ht]
  · simp [otpVerifyHandle, classify, hf, hs, ht]
  · simp [otpResendHandle, classify, hf, hs, ht]
  · simp [smsSendHandle, classify, hf, hs, ht]
  · intro fs v d h; simp [getMessage, h]
  · intro fs d h; simp [getMessage, h]

/-- C1 witness: a 401 response whose body carries the `"validation"` type
marker and a message is classified as AuthenticationError, not
ValidationError. -/
theorem claim_C1_witness :
    otpSendHandle
      { status := 401, is_success := false,
        jsonBody := some (JsonVal.obj
          [("type", JsonVal.str "validation"), ("message", JsonVal.str "bad key")]),
        text := "" } =
      OpOutcome.authenticationError (JsonVal.str "bad key") 401
        (JsonVal.obj
          [("type", JsonVal.str "validation"), ("message", JsonVal.str "bad key")]) := by
  have h := claim_C1
    { status := 401, is_success := false,
      jsonBody := some (JsonVal.obj
        [("type", JsonVal.str "validation"), ("message", JsonVal.str "bad key")]),
      text := "" } "validation" rfl rfl (by decide)
  exact h.1

/-- C2: for every failing response with status other than 401 (whose `type`
field, if present, is a string, so that the source does not crash), every
operation raises ValidationError exactly when the status is 400 or the
lower-cased `type` field equals "validation"; every other such response gets
APIError carrying the actual status. Both carry the body's `message` field or
the per-operation default when the body is not a mapping or lacks the field. -/
theorem claim_C2 (r : HttpResponse) (et : String)
    (hf : r.is_success = false) (h401 : r.status ≠ 401)
    (ht : getTypeLower (parseBody r) = some et) :
    ((r.status = 400 ∨ et = "validation") ↔
      otpSendHandle r =
        OpOutcome.validationError (getMessage (parseBody r) "OTP sending failed")
          r.status (parseBody r)) ∧
    ((r.status = 400 ∨ et = "validation") ↔
      otpVerifyHandle r =
        OpOutcome.validationError (getMessage (parseBody r) "OTP verification failed")
          r.status (parseBody r)) ∧
    ((r.status = 400 ∨ et = "validation") ↔
      otpResendHandle r =
        OpOutcome.validationError (getMessage (parseBody r) "OTP resend failed")
          r.status (parseBody r)) ∧
    ((r.status = 400 ∨ et = "validation") ↔
      smsSendHandle r =
        OpOutcome.validationError (getMessage (parseBody r) "SMS sending failed")
          r.status (parseBody r)) ∧
    (¬(r.status = 400 ∨ et = "validation") →
      otpSendHandle r =
        OpOutcome.apiError (getMessage (parseBody r) "OTP sending failed")
          r.status (parseBody r) ∧
      otpVerifyHandle r =
        OpOutcome.apiError (getMessage (parseBody r) "OTP verification failed")
          r.status (parseBody r) ∧
      otpResendHandle r =
        OpOutcome.apiError (getMessage (parseBody r) "OTP resend failed")
          r.status (parseBody r) ∧
      smsSendHandle r =
        OpOutcome.apiError (getMessage (parseBody r) "SMS sending failed")
          r.status (parseBody r)) ∧
    (∀ fs s, parseBody r = JsonVal.obj fs → getVal "type" fs = some (JsonVal.str s) →
      et = lowerStr s) ∧
    (∀ fs v d, getVal "message" fs = some v → getMessage (JsonVal.obj fs) d = v) ∧
    (∀ fs d, getVal "message" fs = none → getMessage (JsonVal.obj fs) d = JsonVal.str d) ∧
    (∀ b d, (∀ fs, b ≠ JsonVal.obj fs) → getMessage b d = JsonVal.str d) := by
  have base : ∀ d : String,
      classify r.status r.is_success (parseBody r) d =
        if r.status = 400 ∨ et = "validation" then
          OpOutcome.validationError (getMessage (parseBody r) d) r.status (parseBody r)
        else OpOutcome.apiError (getMessage (parseBody r) d) r.status (parseBody r) := by
    intro d
    simp [classify, hf, ht, h401]
  refine ⟨?_, ?_, ?_, ?_, ?_, ?_, ?_, ?_, ?_⟩
  · constructor
    · intro hc; rw [otpSendHandle, base, if_pos hc]
    · intro he; by_contra hc
      rw [otpSendHandle, base, if_neg hc] at he
      simp at he
  · constructor
    · intro hc; rw [otpVerifyHandle, base, if_pos hc]
    · intro he; by_contra hc
      rw [otpVerifyHandle, base, if_neg hc] at he
      simp at he
  · constructor
    · intro hc; rw [otpResendHandle, base, if_pos hc]
    · intro he; by_contra hc
      rw [otpResendHandle, base, if_neg hc] at he
      simp at he
  · constructor
    · intro hc; rw [smsSendHandle, base, if_pos hc]
    · intro he; by_contra hc
      rw [smsSendHandle, base, if_neg hc] at he
      simp at he
  · intro hc
    refine ⟨?_, ?_, ?_, ?_⟩
    · rw [otpSendHandle, base, if_neg hc]
    · rw [otpVerifyHandle, base, if_neg hc]
    · rw [otpResendHandle, base, if_neg hc]
    · rw [smsSendHandle, base, if_neg hc]
  · intro fs s hb hty
    rw [hb] at ht
    simp [getTypeLower, hty] at ht
    exact ht.symm
  · intro fs v d h; simp [getMessage, h]
  · intro fs d h; simp [getMessage, h]
  · intro b d h
    cases b with
    | obj fs => exact absurd rfl (h fs)
    | null => rfl
    | bool x => rfl
    | num x => rfl
    | str x => rfl
    | arr x => rfl

/-- C2 witness: a failing 422 response whose body carries an upper-case
`"VALIDATION"` type marker is classified as ValidationError (case-insensitive
marker, status neither 400 nor 401). -/
theorem claim_C2_witness :
    otpVerifyHandle
      { status := 422, is_success := false,
        jsonBody := some (JsonVal.obj
          [("type", JsonVal.str "VALIDATION"),
           ("message", JsonVal.str "Invalid mobile number")]),
        text := "" } =
      OpOutcome.validationError (JsonVal.str "Invalid mobile number") 422
        (JsonVal.obj
          [("type", JsonVal.str "VALIDATION"),
           ("message", JsonVal.str "Invalid mobile number")]) := by
  have h := claim_C2
    { status := 422, is_success := false,
      jsonBody := some (JsonVal.obj
        [("type", JsonVal.str "VALIDATION"),
         ("message", JsonVal.str "Invalid mobile number")]),
      text := "" } "validation" rfl (by decide) (by decide)
  exact h.2.1.mp (Or.inr rfl)

/-- C3: for every successful HTTP response (is_success true), each operation
returns the parsed JSON body exactly, with no transformation; when the body is
not valid JSON the result is the mapping `{raw_content: <body text>}`. No
validation of the envelope shape is performed on success. -/
theorem claim_C3 (r : HttpResponse) (hs : r.is_success = true) :
    otpSendHandle r = OpOutcome.success (parseBody r) ∧
    otpVerifyHandle r = OpOutcome.success (parseBody r) ∧
    otpResendHandle r = OpOutcome.success (parseBody r) ∧
    smsSendHandle r = OpOutcome.success (parseBody r) ∧
    (∀ j, r.jsonBody = some j → parseBody r = j) ∧
    (r.jsonBody = none →
      parseBody r = JsonVal.obj [("raw_content", JsonVal.str r.text)]) := by
  refine ⟨?_, ?_, ?_, ?_, ?_, ?_⟩
  · simp [otpSendHandle, classify, hs]
  · simp [otpVerifyHandle, classify, hs]
  · simp [otpResendHandle, classify, hs]
  · simp [smsSendHandle, classify, hs]
  · intro j h; simp [parseBody, h]
  · intro h; simp [parseBody, h]

/-- C3 witness: the spec's end-to-end example — a 2xx response with body
`{"type":"success","message":"abc123"}` yields exactly that mapping. -/
theorem claim_C3_witness :
    otpSendHandle
      { status := 200, is_success := true,
        jsonBody := some (JsonVal.obj
          [("type", JsonVal.str "success"), ("message", JsonVal.str "abc123")]),
        text := "" } =
      OpOutcome.success (JsonVal.obj
        [("type", JsonVal.str "success"), ("message", JsonVal.str "abc123")]) := by
  have h := claim_C3
    { status := 200, is_success := true,
      jsonBody := some (JsonVal.obj
        [("type", JsonVal.str "success"), ("message", JsonVal.str "abc123")]),
      text := "" } rfl
  exact h.1

/-- C4 counterexample: `otp.send` with `otp_length=0` — provided and outside
[4, 9] — does not fail: `if otp_length:` is false for 0 (Python truthiness),
so no ValueError is raised, no `otp_length` parameter is sent, and the network
call proceeds (here reaching the transport and surfacing its failure). -/
theorem claim_C4_counterexample :
    ((0 : Int) < 4) ∧
    buildOtpSendParams "key" { mobile := "919999999999", otp_length := some 0 } =
      Except.ok [("authkey", Value.str "key"), ("mobile", Value.str "919999999999")] ∧
    getVal "otp_length"
      [("authkey", Value.str "key"), ("mobile", Value.str "919999999999")] = none ∧
    otpSend "key" { mobile := "919999999999", otp_length := some 0 }
      (TransportResult.requestError "connection refused") =
      OpOutcome.transportError "Network error: connection refused" := by
  exact ⟨by decide, rfl, rfl, rfl⟩

/-- C4 amended: for every call to `otp.send` where `otp_length` is provided,
nonzero and outside [4, 9], the call fails with the local ValueError before any
network call (the outcome is the same for every transport result); for
`otp_length` in {4,...,9} the call proceeds and the outgoing parameters include
that value; `otp_length=0` is treated as not provided (no validation, no
parameter). -/
theorem claim_C4 :
    (∀ (k : String) (a : OtpSendArgs) (n : Int), a.otp_length = some n → n ≠ 0 →
      ¬(4 ≤ n ∧ n ≤ 9) →
      ∀ t, otpSend k a t =
        OpOutcome.invalidArgument "OTP length must be between 4 and 9") ∧
    (∀ (k : String) (a : OtpSendArgs) (n : Int), a.otp_length = some n →
      4 ≤ n → n ≤ 9 → hasKey "otp_length" a.kwargs = false →
      ∃ ps, buildOtpSendParams k a = Except.ok ps ∧
        getVal "otp_length" ps = some (Value.int n) ∧
        ∀ t, otpSend k a t = runOp otpSendHandle t) ∧
    (∀ (k : String) (a : OtpSendArgs), a.otp_length = some 0 →
      buildOtpSendParams k a = buildOtpSendParams k { a with otp_length := none }) := by
  refine ⟨?_, ?_, ?_⟩
  · intro k a n h hn hr t
    simp [otpSend, buildOtpSendParams, h, hn, hr]
  · intro k a n h h4 h9 hk
    have hn : ¬n = 0 := by omega
    have hr : 4 ≤ n ∧ n ≤ 9 := ⟨h4, h9⟩
    refine ⟨applyKwargs a.kwargs
      (setKey "otp_length" (Value.int n)
        (addOptInt "otp_expiry" a.otp_expiry
          (addOptStr "otp" a.otp
            (addOptStr "sender" a.sender
              (addOptStr "message" a.message
                [("authkey", Value.str k), ("mobile", Value.str a.mobile)]))))),
      ?_, ?_, ?_⟩
    · simp [buildOtpSendParams, h, hn, hr]
    · rw [getVal_applyKwargs_of_hasKey_false _ hk, getVal_setKey_self]
    · intro t
      simp [otpSend, buildOtpSendParams, h, hn, hr]
  · intro k a h
    simp [buildOtpSendParams, h]

/-- C4 witness: `otp_length=10` fails with the ValueError regardless of the
transport, and `otp_length=6` proceeds with the parameter included. -/
theorem claim_C4_witness :
    otpSend "key" { mobile := "919999999999", otp_length := some 10 }
      (TransportResult.requestError "down") =
      OpOutcome.invalidArgument "OTP length must be between 4 and 9" ∧
    ∃ ps, buildOtpSendParams "key" { mobile := "919999999999", otp_length := some 6 } =
      Except.ok ps ∧ getVal "otp_length" ps = some (Value.int 6) := by
  constructor
  · exact claim_C4.1 "key" { mobile := "919999999999", otp_length := some 10 } 10
      rfl (by decide) (by decide) (TransportResult.requestError "down")
  · obtain ⟨ps, h1, h2, h3⟩ := claim_C4.2.1 "key"
      { mobile := "919999999999", otp_length := some 6 } 6 rfl
      (by decide) (by decide) rfl
    exact ⟨ps, h1, h2⟩

/-- C5: when the transport fails before a response is received, every
operation raises the network-error exception wrapping the cause's message —
an outcome that carries no HTTP status code and is distinct from APIError.
The hypothesis restricts `otp.send` to calls that pass the local pre-flight
check, since those fail before the transport is consulted. -/
theorem claim_C5 (cause authKey : String) (a : OtpSendArgs)
    (ps : List (String × Value))
    (hok : buildOtpSendParams authKey a = Except.ok ps) :
    otpSend authKey a (TransportResult.requestError cause) =
      OpOutcome.transportError ("Network error: " ++ cause) ∧
    otpVerifyOp (TransportResult.requestError cause) =
      OpOutcome.transportError ("Network error: " ++ cause) ∧
    otpResendOp (TransportResult.requestError cause) =
      OpOutcome.transportError ("Network error: " ++ cause) ∧
    smsSendOp (TransportResult.requestError cause) =
      OpOutcome.transportError ("Network error: " ++ cause) ∧
    (∀ m s d, OpOutcome.transportError ("Network error: " ++ cause) ≠
      OpOutcome.apiError m s d) := by
  refine ⟨?_, rfl, rfl, rfl, ?_⟩
  · simp [otpSend, hok, runOp]
  · intro m s d h
    exact OpOutcome.noConfusion h

/-- C5 witness: a simulated connection failure on `otp.send` surfaces the
wrapped network error. -/
theorem claim_C5_witness :
    otpSend "key" { mobile := "919999999999" } (TransportResult.requestError "timeout") =
      OpOutcome.transportError "Network error: timeout" := by
  have h := claim_C5 "timeout" "key" { mobile := "919999999999" }
    [("authkey", Value.str "key"), ("mobile", Value.str "919999999999")] rfl
  exact h.1

/-- C6: in `sms.send`, a list-valued `mobile` is joined into one
comma-separated string and a single string is transmitted unchanged; the
joined value is the payload's mobile-number field (the source stores it under
the key `"mobiles"`). -/
theorem claim_C6 (authKey : String) (a : SmsSendArgs)
    (hk : hasKey "mobiles" a.kwargs = false) :
    (∀ xs, a.mobile = Sum.inr xs →
      getVal "mobiles" (buildSmsSendPayload authKey a) =
        some (Value.str (String.intercalate "," xs))) ∧
    (∀ s, a.mobile = Sum.inl s →
      getVal "mobiles" (buildSmsSendPayload authKey a) = some (Value.str s)) := by
  have core : getVal "mobiles" (buildSmsSendPayload authKey a) =
      some (Value.str (formatMobile a.mobile)) := by
    simp only [buildSmsSendPayload]
    rw [getVal_applyKwargs_of_hasKey_false _ hk,
      getVal_addOptStr_of_ne _ _ (by decide),
      getVal_addOptStr_of_ne _ _ (by decide),
      getVal_addFlag_of_ne _ _ (by decide),
      getVal_addFlag_of_ne _ _ (by decide),
      getVal_addIfSome_of_ne _ _ (by decide)]
    rfl
  constructor
  · intro xs h; rw [core, h]; rfl
  · intro s h; rw [core, h]; rfl

/-- C6 witness: `mobile=["919000000001","919000000002"]` produces the payload
field `"919000000001,919000000002"`. -/
theorem claim_C6_witness :
    getVal "mobiles" (buildSmsSendPayload "key"
      { mobile := Sum.inr ["919000000001", "919000000002"], message := "hi",
        sender := "SNDR" }) =
      some (Value.str "919000000001,919000000002") := by
  have h := (claim_C6 "key"
    { mobile := Sum.inr ["919000000001", "919000000002"], message := "hi",
      sender := "SNDR" } rfl).1 ["919000000001", "919000000002"] rfl
  exact h

theorem buildOtpSendParams_ok (authKey : String) (a : OtpSendArgs)
    (ps : List (String × Value))
    (h : buildOtpSendParams authKey a = Except.ok ps) :
    ∃ X, ps = applyKwargs a.kwargs X ∧
      getVal "authkey" X = some (Value.str authKey) := by
  have hstack : getVal "authkey"
      (addOptInt "otp_expiry" a.otp_expiry
        (addOptStr "otp" a.otp
          (addOptStr "sender" a.sender
            (addOptStr "message" a.message
              [("authkey", Value.str authKey), ("mobile", Value.str a.mobile)])))) =
      some (Value.str authKey) := by
    rw [getVal_addOptInt_of_ne _ _ (by decide),
      getVal_addOptStr_of_ne _ _ (by decide),
      getVal_addOptStr_of_ne _ _ (by decide),
      getVal_addOptStr_of_ne _ _ (by decide)]
    rfl
  simp only [buildOtpSendParams] at h
  split at h
  · cases h
    exact ⟨_, rfl, hstack⟩
  · split at h
    · cases h
      exact ⟨_, rfl, hstack⟩
    · split at h
      · cases h
        refine ⟨_, rfl, ?_⟩
        rw [getVal_setKey_of_ne _ _ (by decide)]
        exact hstack
      · cases h

/-- C7 counterexample: `variables={}` (an empty mapping) is provided, yet
`_format_recipients` attaches no variables to the entry — `if variables:` is
false for the empty dict, so the entry differs from the one the claim
requires. -/
theorem claim_C7_counterexample :
    formatRecipients (Sum.inl "919000000001") (some []) =
      [{ mobile := "919000000001", vars := none }] ∧
    ({ mobile := "919000000001", vars := none } : Recipient) ≠
      { mobile := "919000000001", vars := some [] } := by
  exact ⟨rfl, by decide⟩

/-- C7 amended: `send_template`'s payload `recipients` field has exactly one
entry per target mobile number (a single string mobile is treated as a
one-element list), each entry mapping "mobile" to that number; when `variables`
is provided and non-empty the same mapping is attached identically to every
entry, and when it is absent or empty no variables key appears in any entry. -/
theorem claim_C7 (mobile : Sum String (List String)) (vs : List (String × Value))
    (hne : vs ≠ []) :
    (∀ xs, mobile = Sum.inr xs →
      formatRecipients mobile (some vs) =
        xs.map (fun n => { mobile := n, vars := some vs }) ∧
      formatRecipients mobile none =
        xs.map (fun n => { mobile := n, vars := none })) ∧
    (∀ s, mobile = Sum.inl s →
      formatRecipients mobile (some vs) = [{ mobile := s, vars := some vs }] ∧
      formatRecipients mobile none = [{ mobile := s, vars := none }]) ∧
    formatRecipients mobile (some []) = formatRecipients mobile none ∧
    (∀ template_id sender_id short_url kw, hasKey "recipients" kw = false →
      getVal "recipients"
        (buildSendTemplatePayload template_id mobile (some vs) sender_id short_url kw) =
        some (TValue.recipientList (formatRecipients mobile (some vs)))) := by
  refine ⟨?_, ?_, ?_, ?_⟩
  · intro xs h
    constructor <;> simp [formatRecipients, h, hne]
  · intro s h
    constructor <;> simp [formatRecipients, h, hne]
  · simp [formatRecipients]
  · intro template_id sender_id short_url kw hk
    cases short_url with
    | none =>
      simp only [buildSendTemplatePayload]
      rw [getVal_applyKwargs_of_hasKey_false _ hk,
        getVal_addOptStrT_of_ne _ _ (by decide)]
      rfl
    | some b =>
      simp only [buildSendTemplatePayload]
      rw [getVal_applyKwargs_of_hasKey_false _ hk,
        getVal_setKey_of_ne _ _ (by decide),
        getVal_addOptStrT_of_ne _ _ (by decide)]
      rfl

/-- C7 witness: two mobile numbers with a non-empty variables mapping — each
recipient entry carries its number and the identical variables mapping. -/
theorem claim_C7_witness :
    formatRecipients (Sum.inr ["919000000001", "919000000002"])
      (some [("name", Value.str "x")]) =
      [{ mobile := "919000000001", vars := some [("name", Value.str "x")] },
       { mobile := "919000000002", vars := some [("name", Value.str "x")] }] := by
  have h := ((claim_C7 (Sum.inr ["919000000001", "919000000002"])
    [("name", Value.str "x")] (by decide)).1 ["919000000001", "919000000002"] rfl).1
  exact h

/-- C8: the boolean flags `flash` and `unicode` of `sms.send` and `short_url`
of `sms.send_template` are serialized as the literal strings "1"/"0" when set,
and the corresponding payload field is absent when the flag is None. -/
theorem claim_C8 (authKey : String) (a : SmsSendArgs)
    (hf : hasKey "flash" a.kwargs = false)
    (hu : hasKey "unicode" a.kwargs = false)
    (template_id : String) (mobile : Sum String (List String))
    (vs : Option (List (String × Value))) (sender_id : Option String)
    (short_url : Option Bool) (kw : List (String × TValue))
    (hs : hasKey "short_url" kw = false) :
    (∀ b, a.flash = some b →
      getVal "flash" (buildSmsSendPayload authKey a) =
        some (Value.str (if b then "1" else "0"))) ∧
    (a.flash = none → getVal "flash" (buildSmsSendPayload authKey a) = none) ∧
    (∀ b, a.unicode = some b →
      getVal "unicode" (buildSmsSendPayload authKey a) =
        some (Value.str (if b then "1" else "0"))) ∧
    (a.unicode = none → getVal "unicode" (buildSmsSendPayload authKey a) = none) ∧
    (∀ b, short_url = some b →
      getVal "short_url"
        (buildSendTemplatePayload template_id mobile vs sender_id short_url kw) =
        some (TValue.str (if b then "1" else "0"))) ∧
    (short_url = none →
      getVal "short_url"
        (buildSendTemplatePayload template_id mobile vs sender_id short_url kw) =
        none) := by
  refine ⟨?_, ?_, ?_, ?_, ?_, ?_⟩
  · intro b hb
    simp only [buildSmsSendPayload]
    rw [getVal_applyKwargs_of_hasKey_false _ hf,
      getVal_addOptStr_of_ne _ _ (by decide),
      getVal_addOptStr_of_ne _ _ (by decide),
      getVal_addFlag_of_ne _ _ (by decide), hb]
    simp [addFlag, getVal_setKey_self]
  · intro hb
    simp only [buildSmsSendPayload]
    rw [getVal_applyKwargs_of_hasKey_false _ hf,
      getVal_addOptStr_of_ne _ _ (by decide),
      getVal_addOptStr_of_ne _ _ (by decide),
      getVal_addFlag_of_ne _ _ (by decide), hb]
    simp only [addFlag]
    rw [getVal_addIfSome_of_ne _ _ (by decide)]
    rfl
  · intro b hb
    simp only [buildSmsSendPayload]
    rw [getVal_applyKwargs_of_hasKey_false _ hu,
      getVal_addOptStr_of_ne _ _ (by decide),
      getVal_addOptStr_of_ne _ _ (by decide), hb]
    simp [addFlag, getVal_setKey_self]
  · intro hb
    have hid : ∀ X : List (String × Value), addFlag "unicode" none X = X :=
      fun X => rfl
    simp only [buildSmsSendPayload]
    rw [getVal_applyKwargs_of_hasKey_false _ hu,
      getVal_addOptStr_of_ne _ _ (by decide),
      getVal_addOptStr_of_ne _ _ (by decide), hb, hid,
      getVal_addFlag_of_ne _ _ (by decide),
      getVal_addIfSome_of_ne _ _ (by decide)]
    rfl
  · intro b hb
    subst hb
    simp only [buildSendTemplatePayload]
    rw [getVal_applyKwargs_of_hasKey_false _ hs, getVal_setKey_self]
  · intro hb
    subst hb
    simp only [buildSendTemplatePayload]
    rw [getVal_applyKwargs_of_hasKey_false _ hs,
      getVal_addOptStrT_of_ne _ _ (by decide)]
    rfl

/-- C8 witness: `flash=True` gives "1", `unicode=False` gives "0",
`short_url=True` gives "1", and an unset flag yields no field. -/
theorem claim_C8_witness :
    getVal "flash" (buildSmsSendPayload "key"
      { mobile := Sum.inl "9", message := "m", sender := "s",
        flash := some true, unicode := some false }) =
      some (Value.str "1") ∧
    getVal "unicode" (buildSmsSendPayload "key"
      { mobile := Sum.inl "9", message := "m", sender := "s",
        flash := some true, unicode := some false }) =
      some (Value.str "0") ∧
    getVal "short_url" (buildSendTemplatePayload "tid" (Sum.inl "9") none none
      (some true) []) = some (TValue.str "1") ∧
    getVal "short_url" (buildSendTemplatePayload "tid" (Sum.inl "9") none none
      none []) = none := by
  have h := claim_C8 "key"
    { mobile := Sum.inl "9", message := "m", sender := "s",
      flash := some true, unicode := some false } rfl rfl
    "tid" (Sum.inl "9") none none (some true) [] rfl
  have h2 := claim_C8 "key"
    { mobile := Sum.inl "9", message := "m", sender := "s",
      flash := some true, unicode := some false } rfl rfl
    "tid" (Sum.inl "9") none none none [] rfl
  exact ⟨h.1 true rfl, h.2.2.1 false rfl, h.2.2.2.2.1 true rfl, h2.2.2.2.2.2 rfl⟩

/-- C9: the OTP operations send the authentication key as the "authkey" query
parameter and attach no headers at all (so in particular no authkey header);
`sms.send` sends the key both as the "authkey" header and as the "authkey"
field of the JSON body. -/
theorem claim_C9 (authKey : String) (a : OtpSendArgs)
    (mobile otp retrytype : String) (kwv kwr : List (String × Value))
    (sa : SmsSendArgs)
    (h1 : hasKey "authkey" a.kwargs = false)
    (h2 : hasKey "authkey" kwv = false)
    (h3 : hasKey "authkey" kwr = false)
    (h4 : hasKey "authkey" sa.kwargs = false) :
    (∀ rd, otpSendRequest authKey a = Except.ok rd →
      getVal "authkey" rd.params = some (Value.str authKey) ∧ rd.headers = []) ∧
    (getVal "authkey" (otpVerifyRequest authKey mobile otp kwv).params =
      some (Value.str authKey) ∧
      (otpVerifyRequest authKey mobile otp kwv).headers = []) ∧
    (getVal "authkey" (otpResendRequest authKey mobile retrytype kwr).params =
      some (Value.str authKey) ∧
      (otpResendRequest authKey mobile retrytype kwr).headers = []) ∧
    (getVal "authkey" (smsSendRequest authKey sa).jsonBody =
      some (Value.str authKey) ∧
      getVal "authkey" (smsSendRequest authKey sa).headers = some authKey) := by
  refine ⟨?_, ⟨?_, rfl⟩, ⟨?_, rfl⟩, ⟨?_, rfl⟩⟩
  · intro rd hrd
    simp only [otpSendRequest, Except.map] at hrd
    cases hb : buildOtpSendParams authKey a with
    | error e => rw [hb] at hrd; cases hrd
    | ok ps =>
      rw [hb] at hrd
      cases hrd
      obtain ⟨X, hX, hXa⟩ := buildOtpSendParams_ok authKey a ps hb
      refine ⟨?_, rfl⟩
      show getVal "authkey" ps = some (Value.str authKey)
      rw [hX, getVal_applyKwargs_of_hasKey_false _ h1, hXa]
  · show getVal "authkey" (otpVerifyParams authKey mobile otp kwv) =
      some (Value.str authKey)
    rw [otpVerifyParams, getVal_applyKwargs_of_hasKey_false _ h2]
    rfl
  · show getVal "authkey" (otpResendParams authKey mobile retrytype kwr) =
      some (Value.str authKey)
    rw [otpResendParams, getVal_applyKwargs_of_hasKey_false _ h3]
    rfl
  · show getVal "authkey" (buildSmsSendPayload authKey sa) =
      some (Value.str authKey)
    simp only [buildSmsSendPayload]
    rw [getVal_applyKwargs_of_hasKey_false _ h4,
      getVal_addOptStr_of_ne _ _ (by decide),
      getVal_addOptStr_of_ne _ _ (by decide),
      getVal_addFlag_of_ne _ _ (by decide),
      getVal_addFlag_of_ne _ _ (by decide),
      getVal_addIfSome_of_ne _ _ (by decide)]
    rfl

/-- C9 witness: concrete requests — the OTP verify request carries authkey as
a query parameter with empty headers; the SMS send request carries it in both
the headers and the JSON body. -/
theorem claim_C9_witness :
    getVal "authkey" (otpVerifyRequest "key" "919999999999" "1234" []).params =
      some (Value.str "key") ∧
    (otpVerifyRequest "key" "919999999999" "1234" []).headers = [] ∧
    getVal "authkey" (smsSendRequest "key"
      { mobile := Sum.inl "9", message := "m", sender := "s" }).jsonBody =
      some (Value.str "key") ∧
    getVal "authkey" (smsSendRequest "key"
      { mobile := Sum.inl "9", message := "m", sender := "s" }).headers =
      some "key" := by
  have h := claim_C9 "key" { mobile := "919999999999" } "919999999999" "1234"
    "text" [] [] { mobile := Sum.inl "9", message := "m", sender := "s" }
    rfl rfl rfl rfl
  exact ⟨h.2.1.1, h.2.1.2, h.2.2.2.1, h.2.2.2.2⟩

/-- C10: extra keyword parameters are merged after all standard fields, so a
caller-supplied extra parameter whose key collides with a reserved field
overwrites the constructed value in the outgoing parameters/payload. -/
theorem claim_C10 (authKey : String) (a : OtpSendArgs) (sa : SmsSendArgs)
    (k : String) (v : Value)
    (hnd : (a.kwargs.map Prod.fst).Nodup) (hm : (k, v) ∈ a.kwargs)
    (hnd2 : (sa.kwargs.map Prod.fst).Nodup) (hm2 : (k, v) ∈ sa.kwargs) :
    (∀ ps, buildOtpSendParams authKey a = Except.ok ps → getVal k ps = some v) ∧
    getVal k (buildSmsSendPayload authKey sa) = some v := by
  constructor
  · intro ps hps
    obtain ⟨X, hX, _⟩ := buildOtpSendParams_ok authKey a ps hps
    rw [hX]
    exact getVal_applyKwargs_of_mem _ hnd hm
  · simp only [buildSmsSendPayload]
    exact getVal_applyKwargs_of_mem _ hnd2 hm2

/-- C10 witness: a kwargs entry with the reserved key "authkey" overwrites the
constructed credential in the `sms.send` payload. -/
theorem claim_C10_witness :
    getVal "authkey" (buildSmsSendPayload "key"
      { mobile := Sum.inl "9", message := "m", sender := "s",
        kwargs := [("authkey", Value.str "EVIL")] }) =
      some (Value.str "EVIL") := by
  have h := claim_C10 "key"
    { mobile := "919999999999", kwargs := [("authkey", Value.str "EVIL")] }
    { mobile := Sum.inl "9", message := "m", sender := "s",
      kwargs := [("authkey", Value.str "EVIL")] }
    "authkey" (Value.str "EVIL") (by decide) (by decide) (by decide) (by decide)
  exact h.2
